import Mathlib

set_option linter.unusedSectionVars false
set_option linter.unnecessarySeqFocus false

/-!
Shallow embedding of the Blackboard singleton registry (Blackboard.h, main.cpp).

The Blackboard stores, per C++ value type `T`, a `Value_Map<T>` holding
  - `m_Values      : unordered_map<string, T>`
  - `m_KeyEvents   : unordered_map<string, EventKeyCallback<T>>`
  - `m_ValueEvents : unordered_map<string, EventValueCallback<T>>`
  - `m_PairEvents  : unordered_map<string, EventKeyValueCallback<T>>`
and the registry itself holds `m_DataStorage : unordered_map<size_t, Base_Map*>`,
keyed by `typeid(T).hash_code()`.

Embedding choices:
  - a C++ type is represented by its type-id `tid : Nat` (the hash code); the family
    `Val : Nat → Type` gives the value type stored in each bucket, and distinct C++
    types have distinct type-ids;
  - each `unordered_map` is modelled as a function to `Option` (unordered maps have
    no ordering semantics, only lookup/insert/erase);
  - a callback function pointer is modelled by its address `CbPtr := Nat`, with `0`
    standing for a null pointer (the `write` code checks the stored pointer for
    truthiness before calling it);
  - callback invocation is made observable through an event trace: every operation
    returns, besides the new state, the list of callback invocations it performed,
    in order, each carrying the callback pointer and the arguments passed.
-/

namespace Utilities

/-- Keys on the blackboard are strings. -/
abbrev Key := String

/-- A callback function pointer, modelled by its address; `0` is the null pointer. -/
abbrev CbPtr := Nat

/-- Insert/overwrite a binding in a string-keyed map, mirroring `map[k] = v`. -/
def mapInsert {α : Type _} (f : Key → Option α) (k : Key) (v : α) : Key → Option α :=
  fun q => if q = k then some v else f q

/-- Erase a binding from a string-keyed map, mirroring `map.erase(k)`. -/
def mapErase {α : Type _} (f : Key → Option α) (k : Key) : Key → Option α :=
  fun q => if q = k then none else f q

/-- `Utilities::Templates::Value_Map<T>`: the per-type bucket holding the values map
and the three callback maps. -/
structure Value_Map (T : Type) where
  m_Values : Key → Option T
  m_KeyEvents : Key → Option CbPtr
  m_ValueEvents : Key → Option CbPtr
  m_PairEvents : Key → Option CbPtr

/-- A freshly constructed `Value_Map<T>`: all four maps empty. -/
def Value_Map.empty (T : Type) : Value_Map T :=
  ⟨fun _ => none, fun _ => none, fun _ => none, fun _ => none⟩

/-- `Value_Map<T>::wipeKey`: erase the value stored at `k` (source lines 388-392). -/
def Value_Map.wipeKey {T : Type} (m : Value_Map T) (k : Key) : Value_Map T :=
  { m with m_Values := mapErase m.m_Values k }

/-- `Value_Map<T>::wipeAll`: clear the whole values map (source lines 399-403). -/
def Value_Map.wipeAll {T : Type} (m : Value_Map T) : Value_Map T :=
  { m with m_Values := fun _ => none }

/-- `Value_Map<T>::unsubscribe`, as written (source lines 412-429).  The code finds
iterators `key`, `val`, `pair` in the three event maps, but the second and third
guards test `key` (the `m_KeyEvents` find result) against `m_ValueEvents.end()` and
`m_PairEvents.end()` instead of testing `val` and `pair`.  (For most `T` those
comparisons do not even type-check, since the iterators belong to maps with
different mapped types; under the usual null-sentinel end iterator they amount to
testing whether the `m_KeyEvents` lookup succeeded.)  So the value and pair
callbacks are erased only when a key callback is registered for `k`. -/
def Value_Map.unsubscribe {T : Type} (m : Value_Map T) (k : Key) : Value_Map T :=
  let keyFound := (m.m_KeyEvents k).isSome
  { m with
    m_KeyEvents := if keyFound then mapErase m.m_KeyEvents k else m.m_KeyEvents
    m_ValueEvents := if keyFound then mapErase m.m_ValueEvents k else m.m_ValueEvents
    m_PairEvents := if keyFound then mapErase m.m_PairEvents k else m.m_PairEvents }

/-- `Value_Map<T>::clearAllEvents`: clear all three event maps (source lines 436-443). -/
def Value_Map.clearAllEvents {T : Type} (m : Value_Map T) : Value_Map T :=
  { m with
    m_KeyEvents := fun _ => none
    m_ValueEvents := fun _ => none
    m_PairEvents := fun _ => none }

/-- One observed callback invocation: which pointer was called and with which
arguments (`keyEvt` for `EventKeyCallback`, `valEvt` for `EventValueCallback`,
`pairEvt` for `EventKeyValueCallback`). -/
inductive CbEvent (Val : Nat → Type) where
  | keyEvt (cb : CbPtr) (k : Key)
  | valEvt (tid : Nat) (cb : CbPtr) (v : Val tid)
  | pairEvt (tid : Nat) (cb : CbPtr) (k : Key) (v : Val tid)

/-- The `Utilities::Blackboard` registry state: `m_DataStorage` maps a type-id to
the bucket for that type, when one has been created. -/
structure Blackboard (Val : Nat → Type) where
  m_DataStorage : (tid : Nat) → Option (Value_Map (Val tid))

variable {Val : Nat → Type}

/-- `Blackboard::create`: a fresh registry with no buckets. -/
def Blackboard.create (Val : Nat → Type) : Blackboard Val :=
  ⟨fun _ => none⟩

/-- Store a bucket under a type-id in `m_DataStorage`. -/
def Blackboard.setBucket (bb : Blackboard Val) (tid : Nat) (m : Value_Map (Val tid)) :
    Blackboard Val :=
  ⟨fun i => if h : tid = i then some (h ▸ m) else bb.m_DataStorage i⟩

/-- The bucket for a type-id, an empty bucket when none exists (matching
`m_DataStorage[key]` after `supportType` has ensured the entry exists). -/
def Blackboard.getBucket (bb : Blackboard Val) (tid : Nat) : Value_Map (Val tid) :=
  (bb.m_DataStorage tid).getD (Value_Map.empty (Val tid))

/-- `Blackboard::supportType<T>` (source lines 164-178): lazily create the bucket
for the type if `m_DataStorage` has no entry for its hash code. -/
def Blackboard.supportType (bb : Blackboard Val) (tid : Nat) : Blackboard Val :=
  if (bb.m_DataStorage tid).isSome then bb
  else bb.setBucket tid (Value_Map.empty (Val tid))

variable [∀ i, Inhabited (Val i)]

/-- `Blackboard::write<T>` (source lines 189-220): ensure the bucket exists, copy
the value in with `map->m_Values[p_Key] = p_Value`, then, when `p_RaiseCallbacks`
holds, invoke in order the key callback with the key, the value callback with
`map->m_Values[p_Key]` (the just-stored value, re-read from the map), and the pair
callback with both; each only when it is found in its map and non-null. -/
def Blackboard.write (bb : Blackboard Val) (tid : Nat) (k : Key) (v : Val tid)
    (raiseCallbacks : Bool) : Blackboard Val × List (CbEvent Val) :=
  let bb1 := bb.supportType tid
  let map := bb1.getBucket tid
  let map' : Value_Map (Val tid) := { map with m_Values := mapInsert map.m_Values k v }
  let events : List (CbEvent Val) :=
    if raiseCallbacks then
      ((map'.m_KeyEvents k).elim [] fun cb =>
        if cb ≠ 0 then [CbEvent.keyEvt cb k] else [])
      ++ ((map'.m_ValueEvents k).elim [] fun cb =>
        if cb ≠ 0 then [CbEvent.valEvt tid cb ((map'.m_Values k).getD default)] else [])
      ++ ((map'.m_PairEvents k).elim [] fun cb =>
        if cb ≠ 0 then [CbEvent.pairEvt tid cb k ((map'.m_Values k).getD default)] else [])
    else []
  (bb1.setBucket tid map', events)

/-- `Blackboard::read<T>` (source lines 231-248): ensure the bucket exists and
return `map->m_Values[p_Key]`.  `operator[]` default-inserts a missing key, so the
returned value is the stored one when present and a default-constructed `T`
otherwise, and the resulting map binds `p_Key` to that value either way.  No
callback is invoked. -/
def Blackboard.read (bb : Blackboard Val) (tid : Nat) (k : Key) :
    Val tid × Blackboard Val × List (CbEvent Val) :=
  let bb1 := bb.supportType tid
  let map := bb1.getBucket tid
  let v := (map.m_Values k).getD default
  (v, bb1.setBucket tid { map with m_Values := mapInsert map.m_Values k v }, [])

/-- `Blackboard::wipeTypeKey<T>` (source lines 255-272), modelled from its
documented intent.  The line fetching the bucket reads
`m_DataStorage[p_Key]` — it indexes the `size_t`-keyed storage map with the
string key instead of the hash `key` computed just above, which does not
type-check; every sibling method writes `m_DataStorage[key]`, and the function
then calls `map->wipeKey(p_Key)` on the fetched bucket. -/
def Blackboard.wipeTypeKey (bb : Blackboard Val) (tid : Nat) (k : Key) :
    Blackboard Val × List (CbEvent Val) :=
  let bb1 := bb.supportType tid
  let map := bb1.getBucket tid
  (bb1.setBucket tid (map.wipeKey k), [])

/-- `Blackboard::subscribe<T>` for `EventKeyCallback` (source lines 282-299):
set `map->m_KeyEvents[p_Key] = pCb`, replacing any previous entry. -/
def Blackboard.subscribeKey (bb : Blackboard Val) (tid : Nat) (k : Key) (pCb : CbPtr) :
    Blackboard Val × List (CbEvent Val) :=
  let bb1 := bb.supportType tid
  let map := bb1.getBucket tid
  (bb1.setBucket tid { map with m_KeyEvents := mapInsert map.m_KeyEvents k pCb }, [])

/-- `Blackboard::subscribe<T>` for `EventValueCallback` (source lines 309-326):
set `map->m_ValueEvents[p_Key] = pCb`, replacing any previous entry. -/
def Blackboard.subscribeValue (bb : Blackboard Val) (tid : Nat) (k : Key) (pCb : CbPtr) :
    Blackboard Val × List (CbEvent Val) :=
  let bb1 := bb.supportType tid
  let map := bb1.getBucket tid
  (bb1.setBucket tid { map with m_ValueEvents := mapInsert map.m_ValueEvents k pCb }, [])

/-- `Blackboard::subscribe<T>` for `EventKeyValueCallback` (source lines 336-353):
set `map->m_PairEvents[p_Key] = pCb`, replacing any previous entry. -/
def Blackboard.subscribePair (bb : Blackboard Val) (tid : Nat) (k : Key) (pCb : CbPtr) :
    Blackboard Val × List (CbEvent Val) :=
  let bb1 := bb.supportType tid
  let map := bb1.getBucket tid
  (bb1.setBucket tid { map with m_PairEvents := mapInsert map.m_PairEvents k pCb }, [])

/-- `Blackboard::unsubscribe<T>` (source lines 360-377): ensure the bucket exists
and delegate to `Value_Map<T>::unsubscribe` (whose as-written guards are modelled
in `Value_Map.unsubscribe`). -/
def Blackboard.unsubscribe (bb : Blackboard Val) (tid : Nat) (k : Key) :
    Blackboard Val × List (CbEvent Val) :=
  let bb1 := bb.supportType tid
  let map := bb1.getBucket tid
  (bb1.setBucket tid (map.unsubscribe k), [])

/-- `Blackboard::wipeKey` (source lines 506-519): call `wipeKey` on every
existing bucket, of every type. -/
def Blackboard.wipeKey (bb : Blackboard Val) (k : Key) :
    Blackboard Val × List (CbEvent Val) :=
  (⟨fun i => (bb.m_DataStorage i).map fun m => m.wipeKey k⟩, [])

/-- `Blackboard::wipeBoard` (source lines 526-546): call `wipeAll` on every
existing bucket and, when `p_WipeCallbacks` holds, also `clearAllEvents`. -/
def Blackboard.wipeBoard (bb : Blackboard Val) (wipeCallbacks : Bool) :
    Blackboard Val × List (CbEvent Val) :=
  (⟨fun i => (bb.m_DataStorage i).map fun m =>
      let m1 := m.wipeAll
      if wipeCallbacks then m1.clearAllEvents else m1⟩, [])

/-- `Blackboard::unsubscribeAll` (source lines 553-566): call
`Value_Map::unsubscribe` on every existing bucket, of every type. -/
def Blackboard.unsubscribeAll (bb : Blackboard Val) (k : Key) :
    Blackboard Val × List (CbEvent Val) :=
  (⟨fun i => (bb.m_DataStorage i).map fun m => m.unsubscribe k⟩, [])

/-! Basic lemmas about the map and bucket operations. -/

theorem mapInsert_self {α : Type _} (f : Key → Option α) (k : Key) (v : α) :
    mapInsert f k v k = some v := by
  simp [mapInsert]

theorem mapInsert_ne {α : Type _} (f : Key → Option α) (k q : Key) (v : α) (h : q ≠ k) :
    mapInsert f k v q = f q := by
  simp [mapInsert, h]

theorem mapErase_self {α : Type _} (f : Key → Option α) (k : Key) :
    mapErase f k k = none := by
  simp [mapErase]

theorem mapErase_ne {α : Type _} (f : Key → Option α) (k q : Key) (h : q ≠ k) :
    mapErase f k q = f q := by
  simp [mapErase, h]

theorem Blackboard.setBucket_self (bb : Blackboard Val) (tid : Nat) (m : Value_Map (Val tid)) :
    (bb.setBucket tid m).m_DataStorage tid = some m := by
  simp [Blackboard.setBucket]

theorem Blackboard.setBucket_ne (bb : Blackboard Val) (tid i : Nat) (m : Value_Map (Val tid))
    (h : i ≠ tid) : (bb.setBucket tid m).m_DataStorage i = bb.m_DataStorage i := by
  simp [Blackboard.setBucket, Ne.symm h]

theorem Blackboard.getBucket_setBucket_self (bb : Blackboard Val) (tid : Nat)
    (m : Value_Map (Val tid)) : (bb.setBucket tid m).getBucket tid = m := by
  rw [Blackboard.getBucket, Blackboard.setBucket_self, Option.getD_some]

theorem Blackboard.getBucket_setBucket_ne (bb : Blackboard Val) (tid i : Nat)
    (m : Value_Map (Val tid)) (h : i ≠ tid) :
    (bb.setBucket tid m).getBucket i = bb.getBucket i := by
  rw [Blackboard.getBucket, Blackboard.setBucket_ne bb tid i m h, Blackboard.getBucket]

theorem Blackboard.supportType_ds_self (bb : Blackboard Val) (tid : Nat) :
    (bb.supportType tid).m_DataStorage tid = some (bb.getBucket tid) := by
  rw [Blackboard.supportType]
  cases h : bb.m_DataStorage tid with
  | none => simp [h, Blackboard.setBucket_self, Blackboard.getBucket]
  | some m => simp [h, Blackboard.getBucket]

theorem Blackboard.supportType_ds_ne (bb : Blackboard Val) (tid i : Nat) (h : i ≠ tid) :
    (bb.supportType tid).m_DataStorage i = bb.m_DataStorage i := by
  rw [Blackboard.supportType]
  cases hs : bb.m_DataStorage tid with
  | none => simp [Blackboard.setBucket_ne _ _ _ _ h]
  | some m => simp

theorem Blackboard.supportType_getBucket (bb : Blackboard Val) (tid : Nat) :
    (bb.supportType tid).getBucket tid = bb.getBucket tid := by
  rw [Blackboard.getBucket, Blackboard.supportType_ds_self, Option.getD_some]

theorem Blackboard.supportType_getBucket_ne (bb : Blackboard Val) (tid i : Nat) (h : i ≠ tid) :
    (bb.supportType tid).getBucket i = bb.getBucket i := by
  rw [Blackboard.getBucket, Blackboard.supportType_ds_ne bb tid i h, Blackboard.getBucket]

/-! Lemmas characterising `write` and `read`. -/

theorem Blackboard.write_getBucket_self (bb : Blackboard Val) (tid : Nat) (k : Key)
    (v : Val tid) (r : Bool) :
    ((bb.write tid k v r).1).getBucket tid =
      { bb.getBucket tid with m_Values := mapInsert (bb.getBucket tid).m_Values k v } := by
  rw [Blackboard.write]
  simp [Blackboard.getBucket_setBucket_self, Blackboard.supportType_getBucket]

theorem Blackboard.write_ds_ne (bb : Blackboard Val) (tid : Nat) (k : Key) (v : Val tid)
    (r : Bool) (i : Nat) (h : i ≠ tid) :
    ((bb.write tid k v r).1).m_DataStorage i = bb.m_DataStorage i := by
  rw [Blackboard.write]
  simp [Blackboard.setBucket_ne _ _ _ _ h, Blackboard.supportType_ds_ne _ _ _ h]

theorem Blackboard.write_ds_isSome (bb : Blackboard Val) (tid : Nat) (k : Key) (v : Val tid)
    (r : Bool) : (((bb.write tid k v r).1).m_DataStorage tid).isSome = true := by
  rw [Blackboard.write]
  simp [Blackboard.setBucket_self]

theorem Blackboard.read_fst (bb : Blackboard Val) (tid : Nat) (k : Key) :
    (bb.read tid k).1 = ((bb.getBucket tid).m_Values k).getD default := by
  rw [Blackboard.read]
  simp [Blackboard.supportType_getBucket]

theorem Blackboard.write_events_true (bb : Blackboard Val) (tid : Nat) (k : Key) (v : Val tid) :
    (bb.write tid k v true).2 =
      (((bb.getBucket tid).m_KeyEvents k).elim [] fun cb =>
        if cb ≠ 0 then [CbEvent.keyEvt cb k] else [])
      ++ (((bb.getBucket tid).m_ValueEvents k).elim [] fun cb =>
        if cb ≠ 0 then [CbEvent.valEvt tid cb v] else [])
      ++ (((bb.getBucket tid).m_PairEvents k).elim [] fun cb =>
        if cb ≠ 0 then [CbEvent.pairEvt tid cb k v] else []) := by
  rw [Blackboard.write]
  simp [Blackboard.supportType_getBucket, mapInsert_self]

theorem Blackboard.write_events_false (bb : Blackboard Val) (tid : Nat) (k : Key) (v : Val tid) :
    (bb.write tid k v false).2 = [] := by
  rw [Blackboard.write]
  simp

theorem Blackboard.subscribeValue_getBucket_self (bb : Blackboard Val) (tid : Nat) (k : Key)
    (cb : CbPtr) :
    ((bb.subscribeValue tid k cb).1).getBucket tid =
      { bb.getBucket tid with m_ValueEvents := mapInsert (bb.getBucket tid).m_ValueEvents k cb } := by
  rw [Blackboard.subscribeValue]
  simp [Blackboard.getBucket_setBucket_self, Blackboard.supportType_getBucket]

theorem Blackboard.wipeBoard_getBucket_false (bb : Blackboard Val) (tid : Nat) :
    ((bb.wipeBoard false).1).getBucket tid = (bb.getBucket tid).wipeAll := by
  rw [Blackboard.wipeBoard, Blackboard.getBucket, Blackboard.getBucket]
  cases h : bb.m_DataStorage tid <;> simp [h, Value_Map.wipeAll, Value_Map.empty]

theorem Blackboard.wipeBoard_getBucket_true (bb : Blackboard Val) (tid : Nat) :
    ((bb.wipeBoard true).1).getBucket tid = ((bb.getBucket tid).wipeAll).clearAllEvents := by
  rw [Blackboard.wipeBoard, Blackboard.getBucket, Blackboard.getBucket]
  cases h : bb.m_DataStorage tid <;>
    simp [h, Value_Map.wipeAll, Value_Map.clearAllEvents, Value_Map.empty]

/-! The claims. -/

/-- C1: for every initialized registry state, type-id, key and value, `read`
immediately after `write` returns the written value; in particular after two
successive writes to the same key, `read` returns the second value (last write
wins), whatever was written to the key before. -/
theorem write_read_roundtrip (bb : Blackboard Val) (tid : Nat) (k : Key)
    (v v1 v2 : Val tid) (r r1 r2 : Bool) :
    ((bb.write tid k v r).1.read tid k).1 = v ∧
    (((bb.write tid k v1 r1).1.write tid k v2 r2).1.read tid k).1 = v2 := by
  constructor <;>
  · rw [Blackboard.read_fst, Blackboard.write_getBucket_self]
    simp [mapInsert_self]

/-- C2: `write` with `raiseCallbacks = true` produces, after storing the value and
in this fixed order, exactly the registered invocations: the key callback with the
key, then the value callback with the just-written value, then the pair callback
with both; a shape with no (non-null) registered callback contributes nothing; and
`write` with `raiseCallbacks = false` invokes no callback at all. -/
theorem write_callback_fanout (bb : Blackboard Val) (tid : Nat) (k : Key) (v : Val tid) :
    (bb.write tid k v true).2 =
      (((bb.getBucket tid).m_KeyEvents k).elim [] fun cb =>
        if cb ≠ 0 then [CbEvent.keyEvt cb k] else [])
      ++ (((bb.getBucket tid).m_ValueEvents k).elim [] fun cb =>
        if cb ≠ 0 then [CbEvent.valEvt tid cb v] else [])
      ++ (((bb.getBucket tid).m_PairEvents k).elim [] fun cb =>
        if cb ≠ 0 then [CbEvent.pairEvt tid cb k v] else []) ∧
    (bb.write tid k v false).2 = [] :=
  ⟨Blackboard.write_events_true bb tid k v, Blackboard.write_events_false bb tid k v⟩

/-- C3 fails on the code: in a state where key "k" has a value-only callback (here
pointer 1) registered for type-id 0 and no key-only callback, both
`unsubscribe` for that type and the untyped `unsubscribeAll` leave the value-only
callback registered, because the erase guards in `Value_Map::unsubscribe` test the
`m_KeyEvents` find result instead of the `m_ValueEvents`/`m_PairEvents` ones. -/
theorem unsubscribe_misses_value_callback :
    ((((Blackboard.create fun _ => Int).subscribeValue 0 "k" 1).1.unsubscribe 0
        "k").1.getBucket 0).m_ValueEvents "k" = some 1 ∧
    ((((Blackboard.create fun _ => Int).subscribeValue 0 "k" 1).1.unsubscribeAll
        "k").1.getBucket 0).m_ValueEvents "k" = some 1 := by
  constructor <;> rfl

/-- C4: demonstration of the documented scope of the wipe operations on a concrete
state (type-ids 0 and 1 both storing `Int`, key "k" written in both buckets, a
value callback registered in bucket 0): `wipeTypeKey` — modelled from its
documented intent, since the line fetching the bucket indexes `m_DataStorage` with
the string key and does not type-check — removes only bucket 0's entry, leaving
bucket 1's value and the callback; the untyped `wipeKey` (genuine code) removes the
entry from both buckets and also leaves the callback. -/
theorem wipeTypeKey_wipeKey_scope :
    (((((((Blackboard.create fun _ => Int).write 0 "k" 1 true).1.write 1 "k" 2
        true).1.subscribeValue 0 "k" 7).1.wipeTypeKey 0 "k").1.read 0 "k").1 = 0 ∧
     ((((((Blackboard.create fun _ => Int).write 0 "k" 1 true).1.write 1 "k" 2
        true).1.subscribeValue 0 "k" 7).1.wipeTypeKey 0 "k").1.read 1 "k").1 = 2 ∧
     (((((((Blackboard.create fun _ => Int).write 0 "k" 1 true).1.write 1 "k" 2
        true).1.subscribeValue 0 "k" 7).1.wipeTypeKey 0 "k").1.getBucket
        0).m_ValueEvents "k") = some 7) ∧
    (((((((Blackboard.create fun _ => Int).write 0 "k" 1 true).1.write 1 "k" 2
        true).1.subscribeValue 0 "k" 7).1.wipeKey "k").1.read 0 "k").1 = 0 ∧
     ((((((Blackboard.create fun _ => Int).write 0 "k" 1 true).1.write 1 "k" 2
        true).1.subscribeValue 0 "k" 7).1.wipeKey "k").1.read 1 "k").1 = 0 ∧
     (((((((Blackboard.create fun _ => Int).write 0 "k" 1 true).1.write 1 "k" 2
        true).1.subscribeValue 0 "k" 7).1.wipeKey "k").1.getBucket
        0).m_ValueEvents "k") = some 7) := by
  exact ⟨⟨rfl, rfl, rfl⟩, ⟨rfl, rfl, rfl⟩⟩

/-- C5: writes under one type-id are invisible to reads under a different type-id:
after `write` under `tidA`, a `read` under `tidB ≠ tidA` returns exactly what it
returned before the write, and when the key was never written for `tidB` that is
the default-constructed value. No error of any kind is raised. -/
theorem type_isolation (bb : Blackboard Val) (tidA tidB : Nat) (k : Key) (v : Val tidA)
    (r : Bool) (hne : tidA ≠ tidB) (hk : (bb.getBucket tidB).m_Values k = none) :
    ((bb.write tidA k v r).1.read tidB k).1 = default ∧
    ((bb.write tidA k v r).1.read tidB k).1 = (bb.read tidB k).1 := by
  have hb : ((bb.write tidA k v r).1).getBucket tidB = bb.getBucket tidB := by
    rw [Blackboard.getBucket, Blackboard.write_ds_ne bb tidA k v r tidB (Ne.symm hne),
      Blackboard.getBucket]
  constructor
  · rw [Blackboard.read_fst, hb, hk]
    rfl
  · rw [Blackboard.read_fst, Blackboard.read_fst, hb]

/-- C5 witness: on a fresh registry storing `Int` everywhere, writing 5 under
type-id 0 and reading key "k" under type-id 1 yields 0, the default. -/
theorem type_isolation_witness :
    (0 : Nat) ≠ 1 ∧
    (((Blackboard.create fun _ => Int).getBucket 1).m_Values "k" = none) ∧
    (((Blackboard.create fun _ => Int).write 0 "k" 5 true).1.read 1 "k").1 = 0 :=
  ⟨by decide, rfl,
    (type_isolation (Blackboard.create fun _ => Int) 0 1 "k" 5 true (by decide) rfl).1⟩

/-- C6: reading a key never written for a type-id does not fail: it returns the
default-constructed value; and a key written with the default value also reads as
the default, so the two states cannot be told apart through `read`. -/
theorem read_missing_default (bb : Blackboard Val) (tid : Nat) (k : Key)
    (h : (bb.getBucket tid).m_Values k = none) :
    (bb.read tid k).1 = default ∧
    ((bb.write tid k default true).1.read tid k).1 = (default : Val tid) := by
  constructor
  · rw [Blackboard.read_fst, h]
    rfl
  · rw [Blackboard.read_fst, Blackboard.write_getBucket_self]
    simp [mapInsert_self]

/-- C6 witness: on a fresh registry storing `Int`, reading "nope" under type-id 0
yields 0 without any prior write. -/
theorem read_missing_default_witness :
    (((Blackboard.create fun _ => Int).getBucket 0).m_Values "nope" = none) ∧
    ((Blackboard.create fun _ => Int).read 0 "nope").1 = 0 :=
  ⟨rfl, (read_missing_default (Blackboard.create fun _ => Int) 0 "nope" rfl).1⟩

/-- C7: each (type-id, key) pair holds at most one callback of each shape (the
event maps bind a key to at most one pointer), and subscribing two value callbacks
in succession to the same key leaves exactly the second one active while the
key-only and pair callback registrations are untouched at every key. -/
theorem subscribe_value_replaces (bb : Blackboard Val) (tid : Nat) (k : Key)
    (cb1 cb2 : CbPtr) :
    ((((bb.subscribeValue tid k cb1).1.subscribeValue tid k
        cb2).1.getBucket tid).m_ValueEvents k = some cb2) ∧
    (∀ q, (((bb.subscribeValue tid k cb1).1.subscribeValue tid k
        cb2).1.getBucket tid).m_KeyEvents q = (bb.getBucket tid).m_KeyEvents q) ∧
    (∀ q, (((bb.subscribeValue tid k cb1).1.subscribeValue tid k
        cb2).1.getBucket tid).m_PairEvents q = (bb.getBucket tid).m_PairEvents q) := by
  rw [Blackboard.subscribeValue_getBucket_self, Blackboard.subscribeValue_getBucket_self]
  refine ⟨?_, fun q => rfl, fun q => rfl⟩
  simp [mapInsert_self]

/-- C8: `wipeBoard false` clears every value entry in every bucket while leaving
every callback registration unchanged — in particular a subsequent `write`
produces exactly the callback invocations it would have produced before the wipe —
and `wipeBoard true` additionally removes every callback of every shape. -/
theorem wipeBoard_semantics (bb : Blackboard Val) (tid : Nat) (k : Key) (v : Val tid) :
    (((bb.wipeBoard false).1.getBucket tid).m_Values k = none) ∧
    (((bb.wipeBoard false).1.getBucket tid).m_KeyEvents k = (bb.getBucket tid).m_KeyEvents k) ∧
    (((bb.wipeBoard false).1.getBucket tid).m_ValueEvents k =
      (bb.getBucket tid).m_ValueEvents k) ∧
    (((bb.wipeBoard false).1.getBucket tid).m_PairEvents k = (bb.getBucket tid).m_PairEvents k) ∧
    (((bb.wipeBoard false).1.write tid k v true).2 = (bb.write tid k v true).2) ∧
    (((bb.wipeBoard true).1.getBucket tid).m_Values k = none) ∧
    (((bb.wipeBoard true).1.getBucket tid).m_KeyEvents k = none) ∧
    (((bb.wipeBoard true).1.getBucket tid).m_ValueEvents k = none) ∧
    (((bb.wipeBoard true).1.getBucket tid).m_PairEvents k = none) := by
  simp [Blackboard.write_events_true, Blackboard.wipeBoard_getBucket_false,
    Blackboard.wipeBoard_getBucket_true, Value_Map.wipeAll, Value_Map.clearAllEvents]

/-- C9: `write` modifies only the targeted bucket's value entry for the written
key (creating the bucket when absent): buckets of every other type-id are
untouched, values at every other key of the targeted bucket are untouched, and all
three callback maps of the targeted bucket are untouched at every key. -/
theorem write_frame (bb : Blackboard Val) (tid : Nat) (k : Key) (v : Val tid) (r : Bool)
    (tid' : Nat) (k' q : Key) (h1 : tid' ≠ tid) (h2 : k' ≠ k) :
    ((bb.write tid k v r).1.m_DataStorage tid' = bb.m_DataStorage tid') ∧
    (((bb.write tid k v r).1.getBucket tid).m_Values k' = (bb.getBucket tid).m_Values k') ∧
    (((bb.write tid k v r).1.getBucket tid).m_KeyEvents q = (bb.getBucket tid).m_KeyEvents q) ∧
    (((bb.write tid k v r).1.getBucket tid).m_ValueEvents q =
      (bb.getBucket tid).m_ValueEvents q) ∧
    (((bb.write tid k v r).1.getBucket tid).m_PairEvents q = (bb.getBucket tid).m_PairEvents q) ∧
    (((bb.write tid k v r).1.m_DataStorage tid).isSome = true) := by
  refine ⟨Blackboard.write_ds_ne bb tid k v r tid' h1, ?_, ?_, ?_, ?_,
    Blackboard.write_ds_isSome bb tid k v r⟩ <;>
    rw [Blackboard.write_getBucket_self] <;>
    simp [mapInsert_ne _ _ _ _ h2]

/-- C9 witness: concrete frame instance on a fresh `Int` registry, writing key "a"
under type-id 0 and observing type-id 1 and key "b". -/
theorem write_frame_witness :
    (1 : Nat) ≠ 0 ∧ "b" ≠ "a" ∧
    (((Blackboard.create fun _ => Int).write 0 "a" 5 true).1.m_DataStorage 1 =
      (Blackboard.create fun _ => Int).m_DataStorage 1) ∧
    ((((Blackboard.create fun _ => Int).write 0 "a" 5 true).1.getBucket 0).m_Values "b" =
      (((Blackboard.create fun _ => Int)).getBucket 0).m_Values "b") :=
  ⟨by decide, by decide,
    (write_frame (Blackboard.create fun _ => Int) 0 "a" 5 true 1 "b" "q" (by decide)
      (by decide)).1,
    (write_frame (Blackboard.create fun _ => Int) 0 "a" 5 true 1 "b" "q" (by decide)
      (by decide)).2.1⟩

/-- C10: no operation other than `write` with `raiseCallbacks = true` ever invokes
a registered callback: the invocation traces of `read`, the three `subscribe`
shapes, `unsubscribe`, `unsubscribeAll`, `wipeTypeKey`, `wipeKey`, `wipeBoard`
(with either flag) and of `write` with `raiseCallbacks = false` are all empty. -/
theorem only_write_raises_callbacks (bb : Blackboard Val) (tid : Nat) (k : Key) (v : Val tid)
    (cb : CbPtr) (wcb : Bool) :
    (bb.write tid k v false).2 = [] ∧
    (bb.read tid k).2.2 = [] ∧
    (bb.subscribeKey tid k cb).2 = [] ∧
    (bb.subscribeValue tid k cb).2 = [] ∧
    (bb.subscribePair tid k cb).2 = [] ∧
    (bb.unsubscribe tid k).2 = [] ∧
    (bb.unsubscribeAll k).2 = [] ∧
    (bb.wipeTypeKey tid k).2 = [] ∧
    (bb.wipeKey k).2 = [] ∧
    (bb.wipeBoard wcb).2 = [] :=
  ⟨Blackboard.write_events_false bb tid k v, rfl, rfl, rfl, rfl, rfl, rfl, rfl, rfl, rfl⟩

end Utilities
